import Mathlib

/-!
Shallow embedding of the loopforge state machine and transition service
(src/loopforge/states.py, src/loopforge/service.py).

Python mutation is modelled by explicit state passing: methods that mutate a
record return the new record.  Nondeterministic inputs of the source
(uuid4().hex for ids, datetime.now for timestamps) are passed in as explicit
parameters.  Python dicts become association lists, Optional becomes Option,
and a method that can raise is modelled with Except.
-/

set_option maxHeartbeats 1000000

/-- States in the closed-loop development lifecycle (class LoopState). -/
inductive LoopState where
  | issue_created
  | task_queued
  | pr_created
  | ci_pending
  | ci_passed
  | ci_failed
  | awaiting_review
  | approved
  | merged
  | closed
deriving DecidableEq, Fintype

/-- String value of a LoopState member (LoopState is a str Enum). -/
def LoopState.value : LoopState → String
  | .issue_created => ("issue_created")
  | .task_queued => ("task_queued")
  | .pr_created => ("pr_created")
  | .ci_pending => ("ci_pending")
  | .ci_passed => ("ci_passed")
  | .ci_failed => ("ci_failed")
  | .awaiting_review => ("awaiting_review")
  | .approved => ("approved")
  | .merged => ("merged")
  | .closed => ("closed")

/-- Parse a state string back into the enum (pydantic validation of the
state field in LoopRecord.from_dict). -/
def LoopState.ofString? (s : String) : Option LoopState :=
  if s = ("issue_created") then some .issue_created
  else if s = ("task_queued") then some .task_queued
  else if s = ("pr_created") then some .pr_created
  else if s = ("ci_pending") then some .ci_pending
  else if s = ("ci_passed") then some .ci_passed
  else if s = ("ci_failed") then some .ci_failed
  else if s = ("awaiting_review") then some .awaiting_review
  else if s = ("approved") then some .approved
  else if s = ("merged") then some .merged
  else if s = ("closed") then some .closed
  else none

/-- The VALID_TRANSITIONS dict, kept as an association list so that key
presence is observable (claim C4 is about the keys of the dict). -/
def VALID_TRANSITIONS : List (LoopState × List LoopState) :=
  [ (.issue_created, [.task_queued]),
    (.task_queued, [.pr_created]),
    (.pr_created, [.ci_pending]),
    (.ci_pending, [.ci_passed, .ci_failed]),
    (.ci_passed, [.merged, .awaiting_review]),
    (.ci_failed, [.ci_pending]),
    (.awaiting_review, [.approved, .ci_pending]),
    (.approved, [.merged]),
    (.merged, [.closed]),
    (.closed, []) ]

/-- Python dict.get(k, default) on an association list. -/
def dictGet {α β : Type} [BEq α] (d : List (α × β)) (k : α) (dflt : β) : β :=
  (d.lookup k).getD dflt

/-- Values that can appear in a free-form metadata mapping (Python Any,
restricted to the JSON-like scalars the repository actually stores). -/
inductive MetaValue where
  | s (v : String)
  | i (v : Int)
  | b (v : Bool)
  | null
deriving DecidableEq

/-- Metadata mapping: Python dict[str, Any]. -/
def Metadata : Type := List (String × MetaValue)

instance : DecidableEq Metadata := by
  unfold Metadata
  infer_instance

/-- Optional string rendered as a metadata value (None becomes null). -/
def optMeta : Option String → MetaValue
  | some v => .s v
  | none => .null

/-- Record of a single state transition (class LoopTransition). -/
structure LoopTransition where
  from_state : Option String
  to_state : String
  trigger : String
  timestamp : String
  metadata : Metadata
deriving DecidableEq

/-- Tracks a single work item through the closed-loop lifecycle
(class LoopRecord). -/
structure LoopRecord where
  record_id : String
  ref : String
  ref_number : Option Int
  repo : Option String
  pr_url : Option String
  pr_number : Option Int
  state : LoopState
  auto_merge : Bool
  ci_status : List (String × String)
  transitions : List LoopTransition
  labels : List (String × String)
  created_at : String
  updated_at : String
  closed_at : Option String
deriving DecidableEq

/-- The pydantic constructor of LoopRecord with every defaulted field at its
default: record_id is generated from the uuid hex digest, created_at and
updated_at from the clock, state defaults to ISSUE_CREATED, transitions to
the empty list and closed_at to None.  uuidHex stands for uuid4().hex and
now for the value of the _now() default factories at construction time. -/
def LoopRecord.init (uuidHex : List Char) (now : String) (ref : String)
    (ref_number : Option Int) (repo : Option String) (auto_merge : Bool)
    (labels : List (String × String)) : LoopRecord :=
  { record_id := ("loop-") ++ String.mk (uuidHex.take 8)
    ref := ref
    ref_number := ref_number
    repo := repo
    pr_url := none
    pr_number := none
    state := .issue_created
    auto_merge := auto_merge
    ci_status := []
    transitions := []
    labels := labels
    created_at := now
    updated_at := now
    closed_at := none }

/-- Check if a transition to new_state is valid
(LoopRecord.can_transition_to). -/
def LoopRecord.can_transition_to (r : LoopRecord) (new_state : LoopState) :
    Bool :=
  (dictGet VALID_TRANSITIONS r.state []).contains new_state

/-- Transition to a new state if valid (LoopRecord.transition_to).  The
Python method mutates the record and returns a Bool; here it returns the
new record paired with that Bool, and the invalid case returns the record
unchanged.  now stands for the _now() timestamps taken during the call. -/
def LoopRecord.transition_to (r : LoopRecord) (new_state : LoopState)
    (trigger : String) (metadata : Option Metadata) (now : String) :
    LoopRecord × Bool :=
  if r.can_transition_to new_state then
    ({ r with
        transitions := r.transitions ++
          [{ from_state := some r.state.value
             to_state := new_state.value
             trigger := trigger
             timestamp := now
             metadata := metadata.getD [] }]
        state := new_state
        updated_at := now
        closed_at :=
          if new_state = .closed then some now else r.closed_at },
      true)
  else
    (r, false)

/-- Serialized shape of a record: the plain dict produced by
LoopRecord.to_dict, with the state field as a string. -/
structure RecordDict where
  record_id : String
  ref : String
  ref_number : Option Int
  repo : Option String
  pr_url : Option String
  pr_number : Option Int
  state : String
  auto_merge : Bool
  ci_status : List (String × String)
  transitions : List LoopTransition
  labels : List (String × String)
  created_at : String
  updated_at : String
  closed_at : Option String
deriving DecidableEq

/-- Serialize to a plain dict (LoopRecord.to_dict). -/
def LoopRecord.to_dict (r : LoopRecord) : RecordDict :=
  { record_id := r.record_id
    ref := r.ref
    ref_number := r.ref_number
    repo := r.repo
    pr_url := r.pr_url
    pr_number := r.pr_number
    state := r.state.value
    auto_merge := r.auto_merge
    ci_status := r.ci_status
    transitions := r.transitions
    labels := r.labels
    created_at := r.created_at
    updated_at := r.updated_at
    closed_at := r.closed_at }

/-- Deserialize from a plain dict (LoopRecord.from_dict); pydantic
validation of the state string can fail, hence Option. -/
def LoopRecord.from_dict (d : RecordDict) : Option LoopRecord :=
  (LoopState.ofString? d.state).map fun st =>
    { record_id := d.record_id
      ref := d.ref
      ref_number := d.ref_number
      repo := d.repo
      pr_url := d.pr_url
      pr_number := d.pr_number
      state := st
      auto_merge := d.auto_merge
      ci_status := d.ci_status
      transitions := d.transitions
      labels := d.labels
      created_at := d.created_at
      updated_at := d.updated_at
      closed_at := d.closed_at }

/-- Create a new LoopRecord in the ISSUE_CREATED state with the initial
synthetic transition recorded (create_record in states.py). -/
def create_record (uuidHex : List Char) (now : String) (ref : String)
    (ref_number : Option Int) (repo : Option String) (auto_merge : Bool)
    (labels : Option (List (String × String))) : LoopRecord :=
  let record := LoopRecord.init uuidHex now ref ref_number repo auto_merge
    (labels.getD [])
  { record with
      transitions := record.transitions ++
        [{ from_state := none
           to_state := LoopState.issue_created.value
           trigger := ("created")
           timestamp := now
           metadata := [(("ref"), MetaValue.s ref), (("repo"), optMeta repo)] }] }

/-- Human-readable list of allowed targets used in the InvalidTransition
error message of LoopService.transition: the joined state values, or
"none (terminal)" when the allowed list is empty. -/
def allowedStr (allowed : List LoopState) : String :=
  if allowed.isEmpty then ("none (terminal)")
  else String.intercalate (", ") (allowed.map LoopState.value)

/-- Result of a state transition attempt (dataclass TransitionResult). -/
structure TransitionResult where
  success : Bool
  record : Option LoopRecord
  error : Option String
  previous_state : Option LoopState
  new_state : Option LoopState
deriving DecidableEq

/-- Transition hook (type alias TransitionHook): called with the record, the
previous state, the new state and the trigger; a Python hook may raise,
modelled by Except. -/
def TransitionHook : Type :=
  LoopRecord → LoopState → LoopState → String → Except String Unit

/-- Observable outcome of one LoopService.transition call: the returned
TransitionResult together with the trace of repository.save calls, the trace
of hook invocations (arguments passed, in invocation order) and the value
each hook returned or raised.  Hook exceptions are caught by the service, so
hookResults influences nothing else. -/
structure ServiceOutcome where
  result : TransitionResult
  saves : List LoopRecord
  hookCalls : List (LoopRecord × LoopState × LoopState × String)
  hookResults : List (Except String Unit)

/-- LoopService.transition.  The injected repository is modelled by its get
function (the only read the method performs); writes are reported in the
saves trace.  hooks is the service's ordered hook list; now stands for the
timestamps taken inside the call. -/
def LoopService.transition (repoGet : String → Option LoopRecord)
    (hooks : List TransitionHook) (record_id : String)
    (new_state : LoopState) (trigger : String) (metadata : Option Metadata)
    (now : String) : ServiceOutcome :=
  match repoGet record_id with
  | none =>
    { result :=
        { success := false
          record := none
          error := some (("Record not found: ") ++ record_id)
          previous_state := none
          new_state := none }
      saves := []
      hookCalls := []
      hookResults := [] }
  | some record =>
    let previous_state := record.state
    if record.can_transition_to new_state then
      let applied := record.transition_to new_state trigger metadata now
      if applied.2 then
        { result :=
            { success := true
              record := some applied.1
              error := none
              previous_state := some previous_state
              new_state := some new_state }
          saves := [applied.1]
          hookCalls := hooks.map fun _ =>
            (applied.1, previous_state, new_state, trigger)
          hookResults := hooks.map fun h =>
            h applied.1 previous_state new_state trigger }
      else
        { result :=
            { success := false
              record := some applied.1
              error := some ("Transition failed unexpectedly")
              previous_state := some previous_state
              new_state := none }
          saves := []
          hookCalls := []
          hookResults := [] }
    else
      let allowed := dictGet VALID_TRANSITIONS previous_state []
      { result :=
          { success := false
            record := some record
            error := some
              (("Invalid transition: ") ++ previous_state.value ++ (" → ") ++
                new_state.value ++ (". Allowed from ") ++
                previous_state.value ++ (": ") ++ allowedStr allowed)
            previous_state := some previous_state
            new_state := none }
        saves := []
        hookCalls := []
        hookResults := [] }

/-- Records reachable from a starting record by any sequence of
transition_to calls (successful or not); this is the only mutation path the
module exposes. -/
inductive ReachableFrom (r0 : LoopRecord) : LoopRecord → Prop
  | refl : ReachableFrom r0 r0
  | step (r : LoopRecord) (s : LoopState) (trig : String)
      (md : Option Metadata) (now : String) :
      ReachableFrom r0 r → ReachableFrom r0 (r.transition_to s trig md now).1

/-- Helper: the last element of a list with one element appended. -/
lemma getLast?_append_singleton {α : Type} (l : List α) (a : α) :
    (l ++ [a]).getLast? = some a :=
  List.getLast?_concat l

/-- Helper: the table entry of the closed state is empty. -/
lemma dictGet_closed : dictGet VALID_TRANSITIONS LoopState.closed [] = [] := by
  decide

/-- Helper: from the closed state no transition is allowed. -/
lemma can_transition_to_of_closed (r : LoopRecord) (s : LoopState)
    (h : r.state = LoopState.closed) : r.can_transition_to s = false := by
  unfold LoopRecord.can_transition_to
  rw [h, dictGet_closed]
  rfl

/-- Helper: a record that can still transition is not in the closed state. -/
lemma state_ne_closed_of_can (r : LoopRecord) (s : LoopState)
    (h : r.can_transition_to s = true) : r.state ≠ LoopState.closed := by
  intro hc
  rw [can_transition_to_of_closed r s hc] at h
  exact absurd h (by decide)

/-- Helper: the string value of a state determines the state. -/
lemma LoopState.value_inj (a b : LoopState) (h : a.value = b.value) : a = b := by
  revert h
  cases a <;> cases b <;> decide

/-- Helper: unfolding of transition_to on a valid target. -/
lemma transition_to_of_can (r : LoopRecord) (t : LoopState) (trig : String)
    (md : Option Metadata) (now : String)
    (h : r.can_transition_to t = true) :
    r.transition_to t trig md now =
      ({ r with
          transitions := r.transitions ++
            [{ from_state := some r.state.value, to_state := t.value,
               trigger := trig, timestamp := now, metadata := md.getD [] }]
          state := t
          updated_at := now
          closed_at :=
            if t = LoopState.closed then some now else r.closed_at },
        true) := by
  unfold LoopRecord.transition_to
  rw [h]
  rfl

/-- Helper: unfolding of transition_to on an invalid target. -/
lemma transition_to_of_not_can (r : LoopRecord) (t : LoopState)
    (trig : String) (md : Option Metadata) (now : String)
    (h : r.can_transition_to t = false) :
    r.transition_to t trig md now = (r, false) := by
  unfold LoopRecord.transition_to
  rw [h]
  rfl

/-- C4: the transition table has every one of the ten states as a key, the
entry for closed is the empty list (terminal, no egress), and issue_created
appears in no entry's target list (it is entry-only). -/
theorem claim_C4_table_shape :
    (∀ s : LoopState, (VALID_TRANSITIONS.lookup s).isSome = true) ∧
    VALID_TRANSITIONS.lookup LoopState.closed = some [] ∧
    (∀ p ∈ VALID_TRANSITIONS, LoopState.issue_created ∉ p.2) := by
  refine ⟨?_, ?_, ?_⟩ <;> decide

/-- C10: a LoopRecord built through the public constructor with only ref
supplied (bypassing the create_record factory) has an empty transitions
list while its state is issue_created and closed_at is none: the
never-empty-history invariant is established only by the factory. -/
theorem claim_C10_bare_constructor (uuidHex : List Char) (now ref : String) :
    (LoopRecord.init uuidHex now ref none none false []).transitions = [] ∧
    (LoopRecord.init uuidHex now ref none none false []).state =
      LoopState.issue_created ∧
    (LoopRecord.init uuidHex now ref none none false []).closed_at = none :=
  ⟨rfl, rfl, rfl⟩

/-- C2: can_transition_to is true exactly when the target is a member of the
transition table's entry for the record's current state, and calling
transition_to with a target for which can_transition_to is false returns
false and leaves the record unchanged in every field. -/
theorem claim_C2_validation_and_frame (r : LoopRecord) (t : LoopState) :
    (∀ l, VALID_TRANSITIONS.lookup r.state = some l →
      (r.can_transition_to t = true ↔ t ∈ l)) ∧
    (∀ trig md now, r.can_transition_to t = false →
      r.transition_to t trig md now = (r, false)) := by
  constructor
  · intro l hl
    unfold LoopRecord.can_transition_to dictGet
    rw [hl]
    simp only [Option.getD_some]
    exact List.elem_iff
  · intro trig md now h
    exact transition_to_of_not_can r t trig md now h

/-- Witness for C2 at a concrete record: from issue_created, task_queued is
allowed and merged is rejected without mutation. -/
theorem claim_C2_validation_and_frame_witness :
    ((LoopRecord.init [] ("t0") ("r") none none false []).can_transition_to
        LoopState.task_queued = true ↔
      LoopState.task_queued ∈ [LoopState.task_queued]) ∧
    (LoopRecord.init [] ("t0") ("r") none none false []).transition_to
        LoopState.merged ("x") none ("t1") =
      (LoopRecord.init [] ("t0") ("r") none none false [], false) :=
  ⟨(claim_C2_validation_and_frame _ _).1 [LoopState.task_queued] (by decide),
   (claim_C2_validation_and_frame _ _).2 ("x") none ("t1") (by decide)⟩

/-- C3: a transition_to call with a legal target appends exactly one history
entry carrying the prior state, the target, the trigger and the metadata
(empty mapping when absent), sets the state to the target, refreshes
updated_at, sets closed_at when the target is closed (and keeps it
otherwise), leaves the other fields unchanged, and returns true. -/
theorem claim_C3_apply_transition (r : LoopRecord) (t : LoopState)
    (trig : String) (md : Option Metadata) (now : String)
    (h : r.can_transition_to t = true) :
    (r.transition_to t trig md now).2 = true ∧
    (r.transition_to t trig md now).1.transitions =
      r.transitions ++
        [{ from_state := some r.state.value, to_state := t.value,
           trigger := trig, timestamp := now, metadata := md.getD [] }] ∧
    (r.transition_to t trig md now).1.state = t ∧
    (r.transition_to t trig md now).1.updated_at = now ∧
    (t = LoopState.closed →
      (r.transition_to t trig md now).1.closed_at = some now) ∧
    (t ≠ LoopState.closed →
      (r.transition_to t trig md now).1.closed_at = r.closed_at) ∧
    (r.transition_to t trig md now).1.record_id = r.record_id ∧
    (r.transition_to t trig md now).1.ref = r.ref ∧
    (r.transition_to t trig md now).1.repo = r.repo ∧
    (r.transition_to t trig md now).1.labels = r.labels ∧
    (r.transition_to t trig md now).1.created_at = r.created_at := by
  rw [transition_to_of_can r t trig md now h]
  refine ⟨rfl, rfl, rfl, rfl, ?_, ?_, rfl, rfl, rfl, rfl, rfl⟩
  · intro hc
    simp [hc]
  · intro hc
    simp [hc]

/-- Witness for C3 at a concrete record: queueing a fresh issue succeeds and
moves the state to task_queued. -/
theorem claim_C3_apply_transition_witness :
    ((LoopRecord.init [] ("t0") ("r") none none false []).transition_to
        LoopState.task_queued ("q") none ("t1")).2 = true ∧
    ((LoopRecord.init [] ("t0") ("r") none none false []).transition_to
        LoopState.task_queued ("q") none ("t1")).1.state =
      LoopState.task_queued :=
  ⟨(claim_C3_apply_transition (LoopRecord.init [] ("t0") ("r") none none
      false []) LoopState.task_queued ("q") none ("t1") (by decide)).1,
   (claim_C3_apply_transition (LoopRecord.init [] ("t0") ("r") none none
      false []) LoopState.task_queued ("q") none ("t1") (by decide)).2.2.1⟩

/-- Helper: an element of getLast? is a member of the list. -/
lemma mem_of_getLast?_eq_some {α : Type} {l : List α} {a : α}
    (h : l.getLast? = some a) : a ∈ l := by
  obtain ⟨hne, rfl⟩ := List.mem_getLast?_eq_getLast (by rw [h]; exact rfl)
  exact List.getLast_mem hne

/-- Record invariant maintained by create_record and transition_to: a
non-empty history whose last entry names the current state, closed_at set
exactly when the current state is closed, and a history entry into closed
forcing the current state to be closed (closed is terminal). -/
def recInv (r : LoopRecord) : Prop :=
  r.transitions ≠ [] ∧
  r.transitions.getLast?.map LoopTransition.to_state = some r.state.value ∧
  (r.closed_at.isSome = true ↔ r.state = LoopState.closed) ∧
  (∀ tr ∈ r.transitions, tr.to_state = LoopState.closed.value →
    r.state = LoopState.closed)

/-- Helper: create_record establishes the record invariant. -/
lemma recInv_create_record (uuidHex : List Char) (now ref : String)
    (rn : Option Int) (repo : Option String) (am : Bool)
    (lbls : Option (List (String × String))) :
    recInv (create_record uuidHex now ref rn repo am lbls) := by
  refine ⟨?_, ?_, ?_, ?_⟩
  · simp [create_record, LoopRecord.init]
  · simp [create_record, LoopRecord.init]
  · simp [create_record, LoopRecord.init]
  · intro tr htr hts
    exfalso
    simp [create_record, LoopRecord.init] at htr
    have h2 : tr.to_state = LoopState.issue_created.value := by rw [htr]
    rw [h2] at hts
    exact absurd hts (by decide)

/-- Helper: transition_to preserves the record invariant. -/
lemma recInv_transition_to (r : LoopRecord) (s : LoopState) (trig : String)
    (md : Option Metadata) (now : String) (h : recInv r) :
    recInv (r.transition_to s trig md now).1 := by
  obtain ⟨h1, h2, h3, h4⟩ := h
  cases hcan : r.can_transition_to s with
  | false =>
    rw [transition_to_of_not_can r s trig md now hcan]
    exact ⟨h1, h2, h3, h4⟩
  | true =>
    rw [transition_to_of_can r s trig md now hcan]
    have hne : r.state ≠ LoopState.closed := state_ne_closed_of_can r s hcan
    have hcl : r.closed_at = none := by
      cases hx : r.closed_at with
      | none => rfl
      | some v => exact absurd (h3.mp (by rw [hx]; rfl)) hne
    refine ⟨by simp, ?_, ?_, ?_⟩
    · show (r.transitions ++ [_]).getLast?.map LoopTransition.to_state = _
      rw [getLast?_append_singleton]
      rfl
    · show (if s = LoopState.closed then some now else r.closed_at).isSome =
        true ↔ s = LoopState.closed
      by_cases hs : s = LoopState.closed
      · simp [hs]
      · simp [hs, hcl]
    · intro tr htr hts
      show s = LoopState.closed
      rcases List.mem_append.mp htr with hin | hin
      · exact absurd (h4 tr hin hts) hne
      · rw [List.mem_singleton.mp hin] at hts
        exact LoopState.value_inj s LoopState.closed hts

/-- C1: every record produced by create_record and mutated only by
transition_to calls has a non-empty transitions list, a state equal to the
to_state of the last history entry, and closed_at non-null exactly when a
transition into closed has been recorded. -/
theorem claim_C1_record_invariants (uuidHex : List Char) (now ref : String)
    (rn : Option Int) (repo : Option String) (am : Bool)
    (lbls : Option (List (String × String))) (r : LoopRecord)
    (h : ReachableFrom (create_record uuidHex now ref rn repo am lbls) r) :
    r.transitions ≠ [] ∧
    r.transitions.getLast?.map LoopTransition.to_state =
      some r.state.value ∧
    (r.closed_at.isSome = true ↔
      ∃ tr ∈ r.transitions, tr.to_state = LoopState.closed.value) := by
  have hinv : recInv r := by
    induction h with
    | refl => exact recInv_create_record uuidHex now ref rn repo am lbls
    | step rr s trig md nw hr ih => exact recInv_transition_to rr s trig md nw ih
  obtain ⟨h1, h2, h3, h4⟩ := hinv
  refine ⟨h1, h2, ?_, ?_⟩
  · intro hsome
    obtain ⟨e, he, hts⟩ := Option.map_eq_some'.mp h2
    refine ⟨e, mem_of_getLast?_eq_some he, ?_⟩
    rw [hts, h3.mp hsome]
  · intro ⟨tr, htr, hts⟩
    exact h3.mpr (h4 tr htr hts)

/-- Witness for C1: a freshly created record followed by one queueing
transition satisfies all three invariants. -/
theorem claim_C1_record_invariants_witness :
    (((create_record [] ("t0") ("iss") none none false none).transition_to
        LoopState.task_queued ("q") none ("t1")).1.transitions ≠ [] ∧
      ((create_record [] ("t0") ("iss") none none false none).transition_to
        LoopState.task_queued ("q") none ("t1")).1.transitions.getLast?.map
          LoopTransition.to_state =
        some ((create_record [] ("t0") ("iss") none none false
          none).transition_to LoopState.task_queued ("q") none
            ("t1")).1.state.value ∧
      (((create_record [] ("t0") ("iss") none none false
          none).transition_to LoopState.task_queued ("q") none
            ("t1")).1.closed_at.isSome = true ↔
        ∃ tr ∈ ((create_record [] ("t0") ("iss") none none false
          none).transition_to LoopState.task_queued ("q") none
            ("t1")).1.transitions,
          tr.to_state = LoopState.closed.value)) :=
  claim_C1_record_invariants [] ("t0") ("iss") none none false none _
    (ReachableFrom.step _ LoopState.task_queued ("q") none ("t1")
      ReachableFrom.refl)

/-- Lowercase hexadecimal digit, the alphabet of uuid4().hex. -/
def isHexChar (c : Char) : Bool :=
  c.isDigit || ('a' ≤ c && c ≤ 'f')

/-- Check of the record id pattern from the spec: the literal loop- followed
by exactly 8 hexadecimal characters. -/
def isLoopIdFormat (s : String) : Bool :=
  match s.data with
  | 'l' :: 'o' :: 'o' :: 'p' :: '-' :: rest =>
    rest.length == 8 && rest.all isHexChar
  | _ => false

/-- Helper: the id pattern holds for loop- followed by an 8-character
hexadecimal suffix. -/
lemma isLoopIdFormat_append (rest : List Char) (hlen : rest.length = 8)
    (hhex : rest.all isHexChar = true) :
    isLoopIdFormat (("loop-") ++ String.mk rest) = true := by
  have hdata : (("loop-") ++ String.mk rest).data =
      'l' :: 'o' :: 'o' :: 'p' :: '-' :: rest := rfl
  unfold isLoopIdFormat
  rw [hdata]
  simp [hlen, hhex]

/-- C7: create_record yields a record in state issue_created whose history
is exactly one synthetic entry (from none to issue_created, trigger created,
metadata carrying ref and repo), whose closed_at is none, and whose
generated id is loop- followed by 8 hexadecimal characters whenever the
injected uuid hex digest has at least 8 hexadecimal characters. -/
theorem claim_C7_create_record (uuidHex : List Char) (now ref : String)
    (rn : Option Int) (repo : Option String) (am : Bool)
    (lbls : Option (List (String × String)))
    (h1 : 8 ≤ uuidHex.length) (h2 : ∀ c ∈ uuidHex, isHexChar c = true) :
    (create_record uuidHex now ref rn repo am lbls).state =
      LoopState.issue_created ∧
    (create_record uuidHex now ref rn repo am lbls).transitions =
      [{ from_state := none, to_state := LoopState.issue_created.value,
         trigger := ("created"), timestamp := now,
         metadata := [(("ref"), MetaValue.s ref),
                      (("repo"), optMeta repo)] }] ∧
    (create_record uuidHex now ref rn repo am lbls).closed_at = none ∧
    isLoopIdFormat (create_record uuidHex now ref rn repo am lbls).record_id
      = true := by
  refine ⟨rfl, by simp [create_record, LoopRecord.init], rfl, ?_⟩
  show isLoopIdFormat (("loop-") ++ String.mk (uuidHex.take 8)) = true
  apply isLoopIdFormat_append
  · rw [List.length_take]
    exact Nat.min_eq_left h1
  · rw [List.all_eq_true]
    intro c hc
    exact h2 c (List.mem_of_mem_take hc)

/-- Witness for C7 at a concrete uuid digest and reference. -/
theorem claim_C7_create_record_witness :
    (create_record ("0a1b2c3d4e".toList) ("t0") ("issue-42") none none false
        none).state = LoopState.issue_created ∧
    (create_record ("0a1b2c3d4e".toList) ("t0") ("issue-42") none none false
        none).transitions =
      [{ from_state := none, to_state := LoopState.issue_created.value,
         trigger := ("created"), timestamp := ("t0"),
         metadata := [(("ref"), MetaValue.s ("issue-42")),
                      (("repo"), optMeta none)] }] ∧
    (create_record ("0a1b2c3d4e".toList) ("t0") ("issue-42") none none false
        none).closed_at = none ∧
    isLoopIdFormat (create_record ("0a1b2c3d4e".toList) ("t0") ("issue-42")
        none none false none).record_id = true :=
  claim_C7_create_record ("0a1b2c3d4e".toList) ("t0") ("issue-42") none none
    false none (by decide) (by decide)

/-- C9: deserializing the serialization of any record reproduces the record;
in particular record_id, state, ref, repo, labels and the number of
transition entries are identical. -/
theorem claim_C9_roundtrip (r : LoopRecord) :
    ∃ r2, LoopRecord.from_dict r.to_dict = some r2 ∧
      r2.record_id = r.record_id ∧ r2.state = r.state ∧ r2.ref = r.ref ∧
      r2.repo = r.repo ∧ r2.labels = r.labels ∧
      r2.transitions.length = r.transitions.length := by
  have hof : LoopState.ofString? r.state.value = some r.state := by
    cases r.state <;> rfl
  refine ⟨r, ?_, rfl, rfl, rfl, rfl, rfl, rfl⟩
  show (LoopState.ofString? r.state.value).map
    (fun st =>
      { record_id := r.record_id, ref := r.ref, ref_number := r.ref_number,
        repo := r.repo, pr_url := r.pr_url, pr_number := r.pr_number,
        state := st, auto_merge := r.auto_merge, ci_status := r.ci_status,
        transitions := r.transitions, labels := r.labels,
        created_at := r.created_at, updated_at := r.updated_at,
        closed_at := r.closed_at }) = some r
  rw [hof]
  rfl

/-- Edge relation of the directed graph defined by the transition table. -/
def isEdge (s t : LoopState) : Bool :=
  (dictGet VALID_TRANSITIONS s []).contains t

/-- The two designated back edges of the table graph: failed CI retried, and
review bouncing back to CI. -/
def isBackEdge (s t : LoopState) : Bool :=
  (s == LoopState.ci_failed && t == LoopState.ci_pending) ||
    (s == LoopState.awaiting_review && t == LoopState.ci_pending)

/-- Walk predicate: the listed states are reached from s by consecutive
table edges. -/
def pathFrom (s : LoopState) : List LoopState → Bool
  | [] => true
  | t :: rest => isEdge s t && pathFrom t rest

/-- Walk predicate: some step of the walk is one of the two back edges. -/
def usesBackEdge (s : LoopState) : List LoopState → Bool
  | [] => false
  | t :: rest => isBackEdge s t || usesBackEdge t rest

/-- Topological rank certifying that the table minus the two back edges is
acyclic: every remaining edge strictly increases the rank. -/
def rank : LoopState → Nat
  | .issue_created => 0
  | .task_queued => 1
  | .pr_created => 2
  | .ci_pending => 3
  | .ci_passed => 4
  | .awaiting_review => 5
  | .approved => 6
  | .merged => 7
  | .closed => 8
  | .ci_failed => 9

/-- Helper: every table edge that is not a back edge increases the rank. -/
lemma rank_lt_of_forward_edge :
    ∀ s t, isEdge s t = true → isBackEdge s t = false → rank s < rank t := by
  decide

/-- Helper: a nonempty walk that uses no back edge increases the rank. -/
lemma rank_lt_of_path (l : List LoopState) :
    ∀ s t, pathFrom s (l ++ [t]) = true →
      usesBackEdge s (l ++ [t]) = false → rank s < rank t := by
  induction l with
  | nil =>
    intro s t hp hu
    simp [pathFrom] at hp
    simp [usesBackEdge] at hu
    exact rank_lt_of_forward_edge s t hp hu
  | cons u l ih =>
    intro s t hp hu
    simp only [List.cons_append, pathFrom, Bool.and_eq_true] at hp
    simp only [List.cons_append, usesBackEdge, Bool.or_eq_false_iff] at hu
    exact lt_trans (rank_lt_of_forward_edge s u hp.1 hu.1) (ih u t hp.2 hu.2)

/-- C8: the table graph contains the CI-retry cycle and the
review-bounce cycle, and every cycle goes through one of the two edges
ci_failed to ci_pending or awaiting_review to ci_pending; removing those
two edges therefore leaves an acyclic graph. -/
theorem claim_C8_cycle_structure :
    pathFrom LoopState.ci_pending
      [LoopState.ci_failed, LoopState.ci_pending] = true ∧
    pathFrom LoopState.ci_pending
      [LoopState.ci_passed, LoopState.awaiting_review,
        LoopState.ci_pending] = true ∧
    (∀ (s : LoopState) (l : List LoopState),
      pathFrom s (l ++ [s]) = true → usesBackEdge s (l ++ [s]) = true) := by
  refine ⟨by decide, by decide, ?_⟩
  intro s l hp
  cases hx : usesBackEdge s (l ++ [s]) with
  | true => rfl
  | false => exact absurd (rank_lt_of_path l s s hp hx) (lt_irrefl _)

/-- Witness for C8: the CI-retry cycle does use a back edge. -/
theorem claim_C8_cycle_structure_witness :
    usesBackEdge LoopState.ci_pending
      ([LoopState.ci_failed] ++ [LoopState.ci_pending]) = true :=
  claim_C8_cycle_structure.2.2 LoopState.ci_pending [LoopState.ci_failed]
    (by decide)

/-- C5: Service.transition on an id unknown to storage returns a failure
carrying no record and the not-found error, and on a record whose state
cannot reach the target it returns a failure carrying the loaded record
unchanged, the previous state and the message built from the allowed next
states; in both failure cases no save and no hook call happens, and for a
terminal state the allowed-states part of the message reads
none (terminal). -/
theorem claim_C5_failure_paths (repoGet : String → Option LoopRecord)
    (hooks : List TransitionHook) (record_id : String)
    (new_state : LoopState) (trigger : String) (metadata : Option Metadata)
    (now : String) :
    (repoGet record_id = none →
      LoopService.transition repoGet hooks record_id new_state trigger
          metadata now =
        { result :=
            { success := false
              record := none
              error := some (("Record not found: ") ++ record_id)
              previous_state := none
              new_state := none }
          saves := []
          hookCalls := []
          hookResults := [] }) ∧
    (∀ record, repoGet record_id = some record →
      record.can_transition_to new_state = false →
      LoopService.transition repoGet hooks record_id new_state trigger
          metadata now =
        { result :=
            { success := false
              record := some record
              error := some (("Invalid transition: ") ++
                record.state.value ++ (" → ") ++ new_state.value ++
                (". Allowed from ") ++ record.state.value ++ (": ") ++
                allowedStr (dictGet VALID_TRANSITIONS record.state []))
              previous_state := some record.state
              new_state := none }
          saves := []
          hookCalls := []
          hookResults := [] }) ∧
    (∀ s : LoopState, dictGet VALID_TRANSITIONS s [] = [] →
      allowedStr (dictGet VALID_TRANSITIONS s []) = ("none (terminal)")) := by
  refine ⟨?_, ?_, ?_⟩
  · intro h
    simp [LoopService.transition, h]
  · intro record h hc
    simp [LoopService.transition, h, hc]
  · intro s hs
    rw [hs]
    rfl

/-- Witness for C5: an always-empty repository yields the not-found failure,
and a fresh record refuses a jump straight to merged. -/
theorem claim_C5_failure_paths_witness :
    (LoopService.transition (fun _ => none) [] ("x") LoopState.task_queued
        ("t") none ("t1") =
      { result :=
          { success := false
            record := none
            error := some (("Record not found: ") ++ ("x"))
            previous_state := none
            new_state := none }
        saves := []
        hookCalls := []
        hookResults := [] }) ∧
    (LoopService.transition
        (fun _ => some (LoopRecord.init [] ("t0") ("r") none none false []))
        [] ("x") LoopState.merged ("t") none ("t1") =
      { result :=
          { success := false
            record :=
              some (LoopRecord.init [] ("t0") ("r") none none false [])
            error := some (("Invalid transition: ") ++
              (LoopRecord.init [] ("t0") ("r") none none false
                []).state.value ++
              (" → ") ++ LoopState.merged.value ++ (". Allowed from ") ++
              (LoopRecord.init [] ("t0") ("r") none none false
                []).state.value ++ (": ") ++
              allowedStr (dictGet VALID_TRANSITIONS
                (LoopRecord.init [] ("t0") ("r") none none false
                  []).state []))
            previous_state :=
              some (LoopRecord.init [] ("t0") ("r") none none false
                []).state
            new_state := none }
        saves := []
        hookCalls := []
        hookResults := [] }) :=
  ⟨(claim_C5_failure_paths (fun _ => none) [] ("x") LoopState.task_queued
      ("t") none ("t1")).1 rfl,
   (claim_C5_failure_paths
      (fun _ => some (LoopRecord.init [] ("t0") ("r") none none false []))
      [] ("x") LoopState.merged ("t") none ("t1")).2.1
    (LoopRecord.init [] ("t0") ("r") none none false []) rfl (by decide)⟩

/-- C6: a successful Service.transition performs exactly one save (of the
mutated record), then invokes every registered hook in registration order
with the record, previous state, new state and trigger; the result does not
depend on what the hooks return or raise, and no failure path invokes any
hook. -/
theorem claim_C6_success_effects (repoGet : String → Option LoopRecord)
    (hooks : List TransitionHook) (record_id : String)
    (new_state : LoopState) (trigger : String) (metadata : Option Metadata)
    (now : String) (record : LoopRecord)
    (h : repoGet record_id = some record)
    (hc : record.can_transition_to new_state = true) :
    (LoopService.transition repoGet hooks record_id new_state trigger
        metadata now).saves =
      [(record.transition_to new_state trigger metadata now).1] ∧
    (LoopService.transition repoGet hooks record_id new_state trigger
        metadata now).hookCalls =
      hooks.map (fun _ =>
        ((record.transition_to new_state trigger metadata now).1,
          record.state, new_state, trigger)) ∧
    (LoopService.transition repoGet hooks record_id new_state trigger
        metadata now).hookResults =
      hooks.map (fun hk =>
        hk (record.transition_to new_state trigger metadata now).1
          record.state new_state trigger) ∧
    (LoopService.transition repoGet hooks record_id new_state trigger
        metadata now).result.success = true ∧
    (LoopService.transition repoGet hooks record_id new_state trigger
        metadata now).result =
      (LoopService.transition repoGet [] record_id new_state trigger
        metadata now).result ∧
    (∀ (g : String → Option LoopRecord) (hs : List TransitionHook)
        (i : String) (n : LoopState) (tg : String) (m : Option Metadata)
        (nw : String),
      (LoopService.transition g hs i n tg m nw).result.success = false →
      (LoopService.transition g hs i n tg m nw).hookCalls = []) := by
  have h2 : (record.transition_to new_state trigger metadata now).2 =
      true := by
    rw [transition_to_of_can record new_state trigger metadata now hc]
  refine ⟨?_, ?_, ?_, ?_, ?_, ?_⟩
  · simp [LoopService.transition, h, hc, h2]
  · simp [LoopService.transition, h, hc, h2]
  · simp [LoopService.transition, h, hc, h2]
  · simp [LoopService.transition, h, hc, h2]
  · simp [LoopService.transition, h, hc, h2]
  · intro g hs i n tg m nw hfail
    cases hg : g i with
    | none => simp [LoopService.transition, hg]
    | some rec2 =>
      cases hcc : rec2.can_transition_to n with
      | false => simp [LoopService.transition, hg, hcc]
      | true =>
        have h3 : (rec2.transition_to n tg m nw).2 = true := by
          rw [transition_to_of_can rec2 n tg m nw hcc]
        simp [LoopService.transition, hg, hcc, h3] at hfail

/-- Witness for C6: with one hook that raises and one that succeeds, the
transition still succeeds, saves once, and calls both hooks in order. -/
theorem claim_C6_success_effects_witness :
    (LoopService.transition
        (fun _ => some (LoopRecord.init [] ("t0") ("r") none none false []))
        ([fun _ _ _ _ => Except.error ("boom"),
          fun _ _ _ _ => Except.ok ()] : List TransitionHook)
        ("x") LoopState.task_queued ("t") none ("t1")).result.success =
      true ∧
    (LoopService.transition
        (fun _ => some (LoopRecord.init [] ("t0") ("r") none none false []))
        ([fun _ _ _ _ => Except.error ("boom"),
          fun _ _ _ _ => Except.ok ()] : List TransitionHook)
        ("x") LoopState.task_queued ("t") none ("t1")).hookCalls.length =
      2 ∧
    (LoopService.transition
        (fun _ => some (LoopRecord.init [] ("t0") ("r") none none false []))
        ([fun _ _ _ _ => Except.error ("boom"),
          fun _ _ _ _ => Except.ok ()] : List TransitionHook)
        ("x") LoopState.task_queued ("t") none ("t1")).saves.length = 1 := by
  refine ⟨(claim_C6_success_effects _ _ ("x") LoopState.task_queued ("t")
      none ("t1") (LoopRecord.init [] ("t0") ("r") none none false []) rfl
      (by decide)).2.2.2.1, ?_, ?_⟩
  · rw [(claim_C6_success_effects _
      ([fun _ _ _ _ => Except.error ("boom"),
        fun _ _ _ _ => Except.ok ()] : List TransitionHook)
      ("x") LoopState.task_queued ("t") none ("t1")
      (LoopRecord.init [] ("t0") ("r") none none false []) rfl
      (by decide)).2.1]
    rfl
  · rw [(claim_C6_success_effects _
      ([fun _ _ _ _ => Except.error ("boom"),
        fun _ _ _ _ => Except.ok ()] : List TransitionHook)
      ("x") LoopState.task_queued ("t") none ("t1")
      (LoopRecord.init [] ("t0") ("r") none none false []) rfl
      (by decide)).1]
    rfl
